import Mathlib

/-
Verification of the nvcomp C++ abstraction layer (src/include/nvcomp.hpp):
the error model (NVCompException, throwExceptionIfError), the type-witness
utility (getnvcompType), and the Compressor/Decompressor interface contracts.
Machine integers are modelled as Nat; device byte buffers as lists of Fin 256;
fallible operations return Except NVCompException.
-/

set_option autoImplicit false

namespace Nvcomp

/-- A device byte: one octet of a buffer. -/
abbrev Byte := Fin 256

/-- Modelled from the spec: the Status Code enumeration of the low-level
status-code layer (declared in nvcomp.h, which is outside src/).  `Success`
is the single non-error value; the remaining constructors cover the failure
kinds named in the spec taxonomy (invalid argument, unsupported type,
device failure, internal failure). -/
inductive nvcompError_t where
  | nvcompSuccess
  | nvcompErrorInvalidValue
  | nvcompErrorNotSupported
  | nvcompErrorCudaError
  | nvcompErrorInternal
  deriving DecidableEq, Repr, Fintype

/-- Modelled from the spec: the integer value of each status code (the C
enum converts implicitly to an integer when formatted by std::to_string).
Distinct codes hold distinct values and the success code is 0. -/
def nvcompError_t.code : nvcompError_t → Nat
  | .nvcompSuccess => 0
  | .nvcompErrorInvalidValue => 10
  | .nvcompErrorNotSupported => 11
  | .nvcompErrorCudaError => 1000
  | .nvcompErrorInternal => 10000

/-- Modelled from the spec: the Type Tag enumeration nvcompType_t (declared
in nvcomp.h, outside src/), identifying the eight supported fixed-width
integer element types. -/
inductive nvcompType_t where
  | NVCOMP_TYPE_CHAR
  | NVCOMP_TYPE_UCHAR
  | NVCOMP_TYPE_SHORT
  | NVCOMP_TYPE_USHORT
  | NVCOMP_TYPE_INT
  | NVCOMP_TYPE_UINT
  | NVCOMP_TYPE_LONGLONG
  | NVCOMP_TYPE_ULONGLONG
  deriving DecidableEq, Repr, Fintype

/-- Embedding of class NVCompException (src/include/nvcomp.hpp): the
std::runtime_error message string together with the stored m_err code. -/
structure NVCompException where
  what : String
  m_err : nvcompError_t

/-- Embedding of the NVCompException constructor: it hands
`msg + " : code=" + std::to_string(err) + "."` to std::runtime_error and
stores err in m_err. -/
def NVCompException.new (err : nvcompError_t) (msg : String) : NVCompException :=
  { what := msg ++ " : code=" ++ toString err.code ++ "."
    m_err := err }

/-- Embedding of NVCompException::get_error: returns the stored m_err. -/
def NVCompException.get_error (e : NVCompException) : nvcompError_t :=
  e.m_err

/-- The status code carried by a failed computation, if it failed. -/
def errCode {α : Type} : Except NVCompException α → Option nvcompError_t
  | .error e => some e.get_error
  | .ok _ => none

/-- The value produced by a successful computation, if it succeeded. -/
def okValue {α : Type} : Except NVCompException α → Option α
  | .error _ => none
  | .ok a => some a

/-- Embedding of throwExceptionIfError (src/include/nvcomp.hpp): throws
NVCompException(error, msg) when error differs from nvcompSuccess, and
does nothing otherwise. -/
def throwExceptionIfError (error : nvcompError_t) (msg : String) :
    Except NVCompException Unit :=
  if error ≠ nvcompError_t.nvcompSuccess then
    .error (NVCompException.new error msg)
  else
    .ok ()

/-- The distinct C++ element types over which getnvcompType is instantiated
in practice, embedded as an enumeration of type identities.  The eight
fixed-width aliases of cstdint are identified with their platform target
types (LP64: int8_t is signed char, int64_t is long, ...); the remaining
constructors are types that are NOT identical to any of the eight aliases,
even when they have the same width and signedness: plain char is a distinct
type from both signed char and unsigned char, bool is an integral type of
its own, and long long is a 64-bit integer type distinct from the alias
target long; float and double are non-integer examples.
std::is_same<T, U> is embedded as equality of constructors. -/
inductive CppType where
  | int8_t
  | uint8_t
  | int16_t
  | uint16_t
  | int32_t
  | uint32_t
  | int64_t
  | uint64_t
  | plain_char
  | bool_t
  | long_long
  | unsigned_long_long
  | float_t
  | double_t
  deriving DecidableEq, Repr, Fintype

/-- The eight element types the spec names as supported: 8/16/32/64-bit
signed and unsigned integers, i.e. exactly the eight cstdint aliases. -/
def CppType.isSupported : CppType → Bool
  | .int8_t | .uint8_t | .int16_t | .uint16_t
  | .int32_t | .uint32_t | .int64_t | .uint64_t => true
  | _ => false

/-- Embedding of getnvcompType (src/include/nvcomp.hpp): the chain of
std::is_same tests against the eight cstdint aliases, throwing
NVCompException(nvcompErrorNotSupported, ...) when none matches. -/
def getnvcompType (T : CppType) : Except NVCompException nvcompType_t :=
  if T = CppType.int8_t then
    .ok .NVCOMP_TYPE_CHAR
  else if T = CppType.uint8_t then
    .ok .NVCOMP_TYPE_UCHAR
  else if T = CppType.int16_t then
    .ok .NVCOMP_TYPE_SHORT
  else if T = CppType.uint16_t then
    .ok .NVCOMP_TYPE_USHORT
  else if T = CppType.int32_t then
    .ok .NVCOMP_TYPE_INT
  else if T = CppType.uint32_t then
    .ok .NVCOMP_TYPE_UINT
  else if T = CppType.int64_t then
    .ok .NVCOMP_TYPE_LONGLONG
  else if T = CppType.uint64_t then
    .ok .NVCOMP_TYPE_ULONGLONG
  else
    .error (NVCompException.new .nvcompErrorNotSupported
      "nvcomp does not support the given type.")

/-- C2: for every one of the eight supported element types getnvcompType
returns a Type Tag; the mapping on the eight supported types is injective
(the eight returned tags are pairwise distinct); and for any element type
outside these eight it raises a failure whose status code is
nvcompErrorNotSupported, with no other effect (pure Except value). -/
theorem getnvcompType_bijective_on_supported :
    (∀ T : CppType, T.isSupported = true → (getnvcompType T).isOk = true) ∧
    (∀ T1 T2 : CppType, ∀ tag : nvcompType_t,
      okValue (getnvcompType T1) = some tag →
      okValue (getnvcompType T2) = some tag → T1 = T2) ∧
    (∀ T : CppType, T.isSupported = false →
      errCode (getnvcompType T) = some nvcompError_t.nvcompErrorNotSupported) := by
  refine ⟨?_, ?_, ?_⟩ <;> decide

/-- Witness for C2 at concrete inputs: int32_t is supported and yields a
tag, and the unsupported float type yields the not-supported code. -/
theorem getnvcompType_bijective_on_supported_witness :
    (getnvcompType CppType.int32_t).isOk = true ∧
    errCode (getnvcompType CppType.float_t)
      = some nvcompError_t.nvcompErrorNotSupported :=
  ⟨getnvcompType_bijective_on_supported.1 CppType.int32_t (by decide),
   getnvcompType_bijective_on_supported.2.2 CppType.float_t (by decide)⟩

/-- C9: getnvcompType dispatches by exact type identity with the eight
cstdint aliases, not by width and signedness: plain char, bool and the
64-bit integer type long long (not the alias target of int64_t on this
platform) each raise the unsupported-type failure even though each is an
8/16/32/64-bit integer type. -/
theorem getnvcompType_exact_identity :
    errCode (getnvcompType CppType.plain_char)
      = some nvcompError_t.nvcompErrorNotSupported ∧
    errCode (getnvcompType CppType.bool_t)
      = some nvcompError_t.nvcompErrorNotSupported ∧
    errCode (getnvcompType CppType.long_long)
      = some nvcompError_t.nvcompErrorNotSupported ∧
    errCode (getnvcompType CppType.unsigned_long_long)
      = some nvcompError_t.nvcompErrorNotSupported := by
  decide

/-- C3: a Failure Object constructed from (err, msg) lets the caller recover
the exact status code through get_error, and its message embeds the decimal
rendering of that status code as an infix; the code is not lost. -/
theorem nvcompException_code_recoverable (err : nvcompError_t) (msg : String) :
    (NVCompException.new err msg).get_error = err ∧
    (toString err.code).data <:+: (NVCompException.new err msg).what.data := by
  refine ⟨rfl, ?_⟩
  refine ⟨(msg ++ " : code=").data, ".".data, ?_⟩
  simp [NVCompException.new, String.data_append]

/-- C10: the stored message is exactly msg followed by " : code=", the
decimal rendering of err, and a trailing "." (the caller's message is a
verbatim prefix), and get_error returns exactly the stored code, which is
fixed at construction. -/
theorem nvcompException_message_format (err : nvcompError_t) (msg : String) :
    (NVCompException.new err msg).what
      = msg ++ " : code=" ++ toString err.code ++ "." ∧
    (NVCompException.new err msg).get_error = err :=
  ⟨rfl, rfl⟩

/-- C4: throwExceptionIfError raises if and only if the code is not
nvcompSuccess; when it raises, the raised object's code equals the given
code; when the code is nvcompSuccess it returns unit with no effect. -/
theorem throwExceptionIfError_iff (error : nvcompError_t) (msg : String) :
    ((∃ e, throwExceptionIfError error msg = .error e) ↔
      error ≠ nvcompError_t.nvcompSuccess) ∧
    (∀ e, throwExceptionIfError error msg = .error e → e.get_error = error) ∧
    (error = nvcompError_t.nvcompSuccess →
      throwExceptionIfError error msg = .ok ()) := by
  refine ⟨⟨?_, ?_⟩, ?_, ?_⟩
  · rintro ⟨e, he⟩ hsucc
    simp [throwExceptionIfError, hsucc] at he
  · intro h
    exact ⟨NVCompException.new error msg, by simp [throwExceptionIfError, h]⟩
  · intro e he
    by_cases h : error = nvcompError_t.nvcompSuccess
    · simp [throwExceptionIfError, h] at he
    · simp [throwExceptionIfError, h] at he
      rw [← he]
      rfl
  · intro h
    simp [throwExceptionIfError, h]

/-- Witness for C4 at concrete inputs: the success code produces no raise,
and an error code raises an object carrying that same code. -/
theorem throwExceptionIfError_iff_witness :
    throwExceptionIfError nvcompError_t.nvcompSuccess "ok" = .ok () ∧
    (NVCompException.new nvcompError_t.nvcompErrorInternal "boom").get_error
      = nvcompError_t.nvcompErrorInternal :=
  ⟨(throwExceptionIfError_iff nvcompError_t.nvcompSuccess "ok").2.2 rfl,
   (throwExceptionIfError_iff nvcompError_t.nvcompErrorInternal "boom").2.1
     (NVCompException.new nvcompError_t.nvcompErrorInternal "boom")
     (by simp [throwExceptionIfError])⟩

/-- Embedding of the abstract class Compressor (src/include/nvcomp.hpp).
configure(const size_t in_bytes, size_t* temp_bytes, size_t* out_bytes)
receives only the input size in bytes — no pointer to the input data — and
writes the two sizes through its out-parameters, here the returned pair.
compress_async(in_ptr, in_bytes, temp_ptr, temp_bytes, out_ptr, out_bytes*,
stream) receives the input buffer (pointer plus size, here a byte list),
the workspace size, and the entry value of *out_bytes (the output buffer
capacity); on success it returns the compressed bytes together with the
value written back through out_bytes. -/
structure Compressor where
  configure : Nat → Except NVCompException (Nat × Nat)
  compress_async : List Byte → Nat → Nat → Except NVCompException (List Byte × Nat)

/-- Embedding of the abstract class Decompressor (src/include/nvcomp.hpp).
configure(in_ptr, in_bytes, temp_bytes*, out_bytes*, stream) receives the
compressed buffer and returns the two sizes; decompress_async(in_ptr,
in_bytes, temp_ptr, temp_bytes, out_ptr, const size_t out_bytes, stream)
takes its output size by value (const, input-only): the embedding returns
the decompressed bytes together with the caller's out_bytes value after
the call, which a by-value parameter cannot alter. -/
structure Decompressor where
  configure : List Byte → Except NVCompException (Nat × Nat)
  decompress_async : List Byte → Nat → Nat → Except NVCompException (List Byte × Nat)

/-- Little-endian base-256 rendering of n on k bytes (n taken mod 256^k). -/
def encodeLenAux : Nat → Nat → List Byte
  | 0, _ => []
  | k + 1, n => ⟨n % 256, Nat.mod_lt _ (by norm_num)⟩ :: encodeLenAux k (n / 256)

/-- The 8-byte size_t header a self-describing compressed stream starts
with: the original input size, little-endian. -/
def encodeLen (n : Nat) : List Byte :=
  encodeLenAux 8 n

/-- Little-endian base-256 value of a byte list. -/
def decodeLenList (bs : List Byte) : Nat :=
  bs.foldr (fun b acc => b.val + 256 * acc) 0

/-- Reads the 8-byte size header back from a compressed stream. -/
def decodeLen (bs : List Byte) : Nat :=
  decodeLenList (bs.take 8)

/-- Modelled from the spec: the temporary-workspace size a concrete codec
reports for an input of in_bytes bytes (the concrete codecs are outside
src/; the spec requires only that the size be a deterministic pure function
of the input size and parameters). -/
def modelRequiredTemp (in_bytes : Nat) : Nat :=
  in_bytes

/-- Modelled from the spec: the maximum compressed size a concrete codec
reports: the 8-byte self-describing header plus the worst-case payload. -/
def modelMaxOutput (in_bytes : Nat) : Nat :=
  8 + in_bytes

/-- Modelled from the spec: the compressed representation a concrete codec
produces — a self-describing stream beginning with metadata recording the
original size, followed by the payload. -/
def modelCompress (input : List Byte) : List Byte :=
  encodeLen input.length ++ input

/-- Per-instance state of a compressor, per the spec state machine
Created → Configured → (Configured | Executed): the input size of the most
recent configure call, if any. -/
structure CompressorState where
  lastConfigured : Option Nat
  deriving DecidableEq, Repr

/-- Modelled from the spec: Compressor::configure of the concrete codec — a
synchronous, deterministic pure function of the input size (and the
instance parameters) that records the sizing and reports
(required_temp_size, max_output_size). -/
def modelConfigure (s : CompressorState) (in_bytes : Nat) :
    CompressorState × Nat × Nat :=
  let _ := s
  ({ lastConfigured := some in_bytes },
   modelRequiredTemp in_bytes, modelMaxOutput in_bytes)

/-- Modelled from the spec: Compressor::compress_async of the concrete
codec.  Raises internal failure when invoked before any configure; raises
invalid argument when temp_bytes is below the required workspace of the
most recent configure, or when the entry value of *out_bytes (the output
capacity) is below the compressed size; on success produces the compressed
stream and overwrites *out_bytes with the actual compressed size. -/
def modelCompressAsync (s : CompressorState) (input : List Byte)
    (temp_bytes : Nat) (out_bytes : Nat) :
    Except NVCompException (List Byte × Nat) :=
  match s.lastConfigured with
  | none =>
      .error (NVCompException.new .nvcompErrorInternal
        "compress_async called before configure.")
  | some n =>
      if temp_bytes < modelRequiredTemp n then
        .error (NVCompException.new .nvcompErrorInvalidValue
          "temp workspace is smaller than the configured requirement.")
      else if out_bytes < (modelCompress input).length then
        .error (NVCompException.new .nvcompErrorInvalidValue
          "output buffer is smaller than the compressed data.")
      else
        .ok (modelCompress input, (modelCompress input).length)

/-- Per-instance state of a decompressor: the decompressed size read from
the metadata by the most recent configure call, if any. -/
structure DecompressorState where
  lastConfigured : Option Nat
  deriving DecidableEq, Repr

/-- Modelled from the spec: the temporary-workspace size the concrete codec
reports for decompressing to out_bytes bytes. -/
def modelDecompRequiredTemp (out_bytes : Nat) : Nat :=
  out_bytes

/-- Modelled from the spec: Decompressor::configure of the concrete codec —
reads the size metadata at the head of the self-describing compressed
stream, raising invalid argument when the input is too small to hold the
metadata, and reports (required_temp_size, output_size). -/
def modelDecompConfigure (s : DecompressorState) (input : List Byte) :
    Except NVCompException (DecompressorState × Nat × Nat) :=
  let _ := s
  if input.length < 8 then
    .error (NVCompException.new .nvcompErrorInvalidValue
      "input is too small to contain the stream metadata.")
  else
    .ok ({ lastConfigured := some (decodeLen input) },
         modelDecompRequiredTemp (decodeLen input), decodeLen input)

/-- Modelled from the spec: Decompressor::decompress_async of the concrete
codec.  Raises internal failure before any configure; raises invalid
argument when temp_bytes is below the required workspace of the most
recent configure, when the stream metadata is inconsistent with the
configured size, or when out_bytes is below the decompressed size;
on success writes the original bytes.  out_bytes is taken by value and the
returned second component is the caller's variable after the call. -/
def modelDecompressAsync (s : DecompressorState) (input : List Byte)
    (temp_bytes : Nat) (out_bytes : Nat) :
    Except NVCompException (List Byte × Nat) :=
  match s.lastConfigured with
  | none =>
      .error (NVCompException.new .nvcompErrorInternal
        "decompress_async called before configure.")
  | some n =>
      if temp_bytes < modelDecompRequiredTemp n then
        .error (NVCompException.new .nvcompErrorInvalidValue
          "temp workspace is smaller than the configured requirement.")
      else if input.length < 8 then
        .error (NVCompException.new .nvcompErrorInvalidValue
          "input is too small to contain the stream metadata.")
      else if decodeLen input ≠ n then
        .error (NVCompException.new .nvcompErrorInvalidValue
          "stream metadata is inconsistent with the configured size.")
      else if out_bytes < n then
        .error (NVCompException.new .nvcompErrorInvalidValue
          "output buffer is smaller than the decompressed size.")
      else
        .ok ((input.drop 8).take n, out_bytes)

/-- A concrete Compressor instance packaging the modelled codec behind the
abstract interface (state fixed to freshly-configured for a given size). -/
def modelCompressor : Compressor :=
  { configure := fun in_bytes =>
      .ok (modelConfigure { lastConfigured := none } in_bytes).2
    compress_async := fun input temp_bytes out_bytes =>
      modelCompressAsync { lastConfigured := some input.length }
        input temp_bytes out_bytes }

theorem decodeLenList_cons (b : Byte) (bs : List Byte) :
    decodeLenList (b :: bs) = b.val + 256 * decodeLenList bs :=
  rfl

theorem encodeLenAux_length (k n : Nat) : (encodeLenAux k n).length = k := by
  induction k generalizing n with
  | zero => rfl
  | succ k ih => simp [encodeLenAux, ih]

theorem decodeLenList_encodeLenAux (k n : Nat) (h : n < 256 ^ k) :
    decodeLenList (encodeLenAux k n) = n := by
  induction k generalizing n with
  | zero =>
      have : n = 0 := by simpa using Nat.lt_one_iff.mp (by simpa using h)
      simp [this, encodeLenAux, decodeLenList]
  | succ k ih =>
      have h2 : n / 256 < 256 ^ k := by
        rw [Nat.div_lt_iff_lt_mul (by norm_num)]
        calc n < 256 ^ (k + 1) := h
          _ = 256 ^ k * 256 := by ring
      rw [encodeLenAux, decodeLenList_cons, ih (n / 256) h2]
      exact Nat.mod_add_div n 256

theorem encodeLen_length (n : Nat) : (encodeLen n).length = 8 :=
  encodeLenAux_length 8 n

theorem modelCompress_length (input : List Byte) :
    (modelCompress input).length = 8 + input.length := by
  simp [modelCompress, encodeLen_length]

theorem decodeLen_modelCompress (input : List Byte)
    (h : input.length < 2 ^ 64) :
    decodeLen (modelCompress input) = input.length := by
  have h8 : (encodeLen input.length).length = 8 := encodeLen_length _
  have ht : (modelCompress input).take 8 = encodeLen input.length := by
    rw [modelCompress, ← h8, List.take_left]
  rw [decodeLen, ht, encodeLen, decodeLenList_encodeLenAux]
  have : (256 : Nat) ^ 8 = 2 ^ 64 := by norm_num
  rw [this]
  exact h

theorem modelCompress_drop (input : List Byte) :
    (modelCompress input).drop 8 = input := by
  rw [modelCompress, ← encodeLen_length input.length, List.drop_left]

/-- C1: compressing an input of size N with the codec behind the Compressor
interface, then handing the produced bytes to the Decompressor,
reproduces the original N bytes exactly, and for that compressed stream
the decompressor's configure reports an output_size equal to N: with a
freshly configured compressor and adequate buffers, compress_async
succeeds, Decompressor.configure on its output reports output_size = N,
and decompress_async with the configured sizes returns the input. -/
theorem nvcomp_roundtrip (input : List Byte) (h : input.length < 2 ^ 64) :
    modelCompressAsync (modelConfigure { lastConfigured := none } input.length).1
        input (modelRequiredTemp input.length) (modelMaxOutput input.length)
      = .ok (modelCompress input, (modelCompress input).length) ∧
    modelDecompConfigure { lastConfigured := none } (modelCompress input)
      = .ok ({ lastConfigured := some input.length },
             modelDecompRequiredTemp input.length, input.length) ∧
    modelDecompressAsync { lastConfigured := some input.length }
        (modelCompress input) (modelDecompRequiredTemp input.length) input.length
      = .ok (input, input.length) := by
  have hlen : (modelCompress input).length = 8 + input.length :=
    modelCompress_length input
  have hdec : decodeLen (modelCompress input) = input.length :=
    decodeLen_modelCompress input h
  refine ⟨?_, ?_, ?_⟩
  · simp [modelCompressAsync, modelConfigure, modelRequiredTemp,
      modelMaxOutput, hlen]
  · simp [modelDecompConfigure, hlen, hdec]
  · simp [modelDecompressAsync, modelDecompRequiredTemp, hlen, hdec,
      modelCompress_drop]

/-- Witness for C1 at the concrete three-byte input [5, 6, 7]: the
decompressed bytes equal the input and the reported output_size is 3. -/
theorem nvcomp_roundtrip_witness :
    modelDecompConfigure { lastConfigured := none }
        (modelCompress [(5 : Byte), 6, 7])
      = .ok ({ lastConfigured := some 3 }, modelDecompRequiredTemp 3, 3) ∧
    modelDecompressAsync { lastConfigured := some 3 }
        (modelCompress [(5 : Byte), 6, 7]) (modelDecompRequiredTemp 3) 3
      = .ok ([(5 : Byte), 6, 7], 3) :=
  ⟨(nvcomp_roundtrip [(5 : Byte), 6, 7] (by decide)).2.1,
   (nvcomp_roundtrip [(5 : Byte), 6, 7] (by decide)).2.2⟩

/-- C5: Compressor::configure receives only the input size, never a pointer
to the input data, so for any compressor instance and any two input
buffers of equal size the computed (required_temp_size, max_output_size)
— and its success or failure — is identical whatever the buffers hold. -/
theorem configure_size_only (c : Compressor) (buf1 buf2 : List Byte)
    (h : buf1.length = buf2.length) :
    c.configure buf1.length = c.configure buf2.length := by
  rw [h]

/-- Witness for C5: two concrete equal-length buffers with different
contents give the model compressor identical configure results. -/
theorem configure_size_only_witness :
    modelCompressor.configure [(0 : Byte), 1].length
      = modelCompressor.configure [(255 : Byte), 7].length :=
  configure_size_only modelCompressor [(0 : Byte), 1] [(255 : Byte), 7] (by decide)

/-- C6: Compressor::compress_async treats *out_bytes as in-out — on entry
it is the output capacity, and on success it is overwritten with the
actual compressed size — while Decompressor::decompress_async takes its
output size by value: on any successful call the caller's size value after
the call is exactly the value passed in, never written back. -/
theorem out_bytes_inout_contract :
    (∀ (s : CompressorState) (n : Nat) (input : List Byte)
       (temp_bytes out_bytes : Nat),
      s.lastConfigured = some n →
      modelRequiredTemp n ≤ temp_bytes →
      (modelCompress input).length ≤ out_bytes →
      modelCompressAsync s input temp_bytes out_bytes
        = .ok (modelCompress input, (modelCompress input).length)) ∧
    (∀ (s : DecompressorState) (input : List Byte)
       (temp_bytes out_bytes : Nat) (r : List Byte × Nat),
      modelDecompressAsync s input temp_bytes out_bytes = .ok r →
      r.2 = out_bytes) := by
  constructor
  · intro s n input temp_bytes out_bytes hs ht ho
    simp [modelCompressAsync, hs, Nat.not_lt.mpr ht, Nat.not_lt.mpr ho]
  · intro s input temp_bytes out_bytes r hr
    rw [modelDecompressAsync] at hr
    rcases s with ⟨_ | n⟩
    · simp at hr
    · simp only at hr
      split at hr
      · simp at hr
      · split at hr
        · simp at hr
        · split at hr
          · simp at hr
          · split at hr
            · simp at hr
            · simp only [Except.ok.injEq] at hr
              rw [← hr]

/-- Witness for C6: a concrete compress_async call with capacity 100 for a
two-byte input succeeds and writes back the actual compressed size 10. -/
theorem out_bytes_inout_contract_witness :
    modelCompressAsync { lastConfigured := some 2 } [(5 : Byte), 6] 2 100
      = .ok (modelCompress [(5 : Byte), 6], (modelCompress [(5 : Byte), 6]).length) :=
  out_bytes_inout_contract.1 { lastConfigured := some 2 } 2 [(5 : Byte), 6]
    2 100 rfl (by decide) (by decide)

/-- C7: when compress_async (respectively decompress_async) is invoked with
a temp_size strictly below the required_temp_size of the most recent
matching configure, it raises a failure carrying the invalid-argument
status code nvcompErrorInvalidValue. -/
theorem insufficient_temp_raises_invalid :
    (∀ (s : CompressorState) (n : Nat) (input : List Byte)
       (temp_bytes out_bytes : Nat),
      s.lastConfigured = some n →
      temp_bytes < modelRequiredTemp n →
      errCode (modelCompressAsync s input temp_bytes out_bytes)
        = some nvcompError_t.nvcompErrorInvalidValue) ∧
    (∀ (s : DecompressorState) (n : Nat) (input : List Byte)
       (temp_bytes out_bytes : Nat),
      s.lastConfigured = some n →
      temp_bytes < modelDecompRequiredTemp n →
      errCode (modelDecompressAsync s input temp_bytes out_bytes)
        = some nvcompError_t.nvcompErrorInvalidValue) := by
  constructor
  · intro s n input temp_bytes out_bytes hs ht
    simp [modelCompressAsync, hs, ht, errCode, NVCompException.get_error,
      NVCompException.new]
  · intro s n input temp_bytes out_bytes hs ht
    simp [modelDecompressAsync, hs, ht, errCode, NVCompException.get_error,
      NVCompException.new]

/-- Witness for C7: with a configure of size 5 on record, a workspace of 4
bytes makes compress_async raise the invalid-argument code. -/
theorem insufficient_temp_raises_invalid_witness :
    errCode (modelCompressAsync { lastConfigured := some 5 } [(1 : Byte)] 4 100)
      = some nvcompError_t.nvcompErrorInvalidValue :=
  insufficient_temp_raises_invalid.1 { lastConfigured := some 5 } 5
    [(1 : Byte)] 4 100 rfl (by decide)

/-- C8: Compressor::configure is deterministic with no observable
side-effect difference: a second call with the same input size returns
the same (required_temp_size, max_output_size) pair and leaves the
instance state exactly as the first call did, and the returned sizes do
not depend on the prior instance state at all. -/
theorem configure_deterministic (s : CompressorState) (in_bytes : Nat) :
    (modelConfigure (modelConfigure s in_bytes).1 in_bytes).2
      = (modelConfigure s in_bytes).2 ∧
    (modelConfigure (modelConfigure s in_bytes).1 in_bytes).1
      = (modelConfigure s in_bytes).1 ∧
    (∀ t : CompressorState,
      (modelConfigure t in_bytes).2 = (modelConfigure s in_bytes).2) :=
  ⟨rfl, rfl, fun _ => rfl⟩

end Nvcomp
